import Mathlib

/-!
# Verification of the ezdxf entity-persistence core

Shallow embedding of the repository's attribute-schema codec
(`src/ezdxf/entities/line.py`, `src/ezdxf/entities/leader.py`) and of the
proxy-graphic binary micro-format exercised by
`tests/test_02_dxf_graphics/test_239_proxy_graphic.py`.

Bytes are modelled as `Nat` values below 256, blobs as `List Nat`.
The proxy codec (`ezdxf/proxygraphic.py`) and the generic schema
load/export machinery (`ezdxf/entities/dxfentity.py`) are not part of the
provided sources; those definitions are modelled from the specification,
each marked `Modelled from the spec:` in its doc comment.
-/

set_option maxRecDepth 40000

namespace Ezdxf

/-! ## Little-endian 32-bit integers -/

/-- Read a little-endian 32-bit unsigned integer from four bytes. -/
def rd4 (b0 b1 b2 b3 : Nat) : Nat :=
  b0 + 256 * b1 + 65536 * b2 + 16777216 * b3

/-- Serialize a natural number below `2^32` as four little-endian bytes. -/
def le4 (n : Nat) : List Nat :=
  [n % 256, n / 256 % 256, n / 65536 % 256, n / 16777216 % 256]

/-- All entries of a byte list are genuine bytes. -/
def allBytes (bs : List Nat) : Prop := ∀ b ∈ bs, b < 256

instance (bs : List Nat) : Decidable (allBytes bs) := by
  unfold allBytes; infer_instance

theorem le4_rd4 (b0 b1 b2 b3 : Nat) (h0 : b0 < 256) (h1 : b1 < 256)
    (h2 : b2 < 256) (h3 : b3 < 256) :
    le4 (rd4 b0 b1 b2 b3) = [b0, b1, b2, b3] := by
  simp only [le4, rd4, List.cons.injEq, and_true]
  omega

/-! ## Proxy record codec

Modelled from the spec: `ezdxf/proxygraphic.py` is not under `src/`.
Spec 4.5/6: a proxy blob is an 8-byte prelude (declared total byte size,
record count, both little-endian 32-bit) followed by records; each record
is a little-endian 32-bit total size field (header included, hence at
least 8), a little-endian 32-bit opcode, and `size - 8` payload bytes,
repeated until the cursor reaches the declared blob end.  Unknown opcodes
are preserved verbatim. -/

/-- One decoded proxy record: opcode plus raw payload bytes. -/
structure ProxyRecord where
  opcode : Nat
  payload : List Nat
  deriving DecidableEq, Repr

/-- Modelled from the spec: decode the record region of a proxy blob
(spec 4.5).  Reads each record header, slices exactly the claimed payload,
and fails (`none`) when a header claims a payload running past the blob
end or an impossible size below the 8-byte header.  `fuel` bounds the
recursion by the byte count. -/
def decodeRecordsAux : Nat → List Nat → Option (List ProxyRecord)
  | _, [] => some []
  | 0, _ :: _ => none
  | fuel + 1, b0 :: b1 :: b2 :: b3 :: c0 :: c1 :: c2 :: c3 :: rest =>
    let size := rd4 b0 b1 b2 b3
    let opcode := rd4 c0 c1 c2 c3
    if size < 8 then none
    else if rest.length < size - 8 then none
    else
      match decodeRecordsAux fuel (rest.drop (size - 8)) with
      | some rs => some (⟨opcode, rest.take (size - 8)⟩ :: rs)
      | none => none
  | _ + 1, _ => none

/-- Decode the record region of a proxy blob. -/
def decodeRecords (bytes : List Nat) : Option (List ProxyRecord) :=
  decodeRecordsAux bytes.length bytes

/-- Modelled from the spec: re-serialize one record's header and payload
(spec 4.7), the size field recomputed from the payload. -/
def encodeRecord (r : ProxyRecord) : List Nat :=
  le4 (r.payload.length + 8) ++ le4 r.opcode ++ r.payload

/-- Modelled from the spec: re-serialize a record sequence (spec 4.7). -/
def encodeRecords (rs : List ProxyRecord) : List Nat :=
  (rs.map encodeRecord).flatten

/-- Modelled from the spec: decode a whole proxy blob — the 8-byte prelude
(declared total size, record count) followed by the records.  The prelude
must agree with the actual blob length and decoded record count. -/
def decodeBlob (bytes : List Nat) : Option (List ProxyRecord) :=
  match bytes with
  | b0 :: b1 :: b2 :: b3 :: c0 :: c1 :: c2 :: c3 :: rest =>
    if rd4 b0 b1 b2 b3 ≠ bytes.length then none
    else
      match decodeRecords rest with
      | some rs => if rd4 c0 c1 c2 c3 = rs.length then some rs else none
      | none => none
  | _ => none

/-- Modelled from the spec: encode a whole proxy blob, prelude recomputed
from the record sequence (spec 4.7, exact inverse of 4.5). -/
def encodeBlob (rs : List ProxyRecord) : List Nat :=
  let body := encodeRecords rs
  le4 (body.length + 8) ++ le4 rs.length ++ body

theorem allBytes_take (bs : List Nat) (n : Nat) (h : allBytes bs) :
    allBytes (bs.take n) := fun b hb => h b (List.mem_of_mem_take hb)

theorem allBytes_drop (bs : List Nat) (n : Nat) (h : allBytes bs) :
    allBytes (bs.drop n) := fun b hb => h b (List.mem_of_mem_drop hb)

theorem encodeRecords_decodeRecordsAux (fuel : Nat) :
    ∀ (bytes : List Nat) (rs : List ProxyRecord), allBytes bytes →
      decodeRecordsAux fuel bytes = some rs → encodeRecords rs = bytes := by
  induction fuel with
  | zero =>
    intro bytes rs hB h
    cases bytes with
    | nil => simp [decodeRecordsAux] at h; subst h; rfl
    | cons b bs => simp [decodeRecordsAux] at h
  | succ fuel ih =>
    intro bytes rs hB h
    match bytes with
    | [] => simp [decodeRecordsAux] at h; subst h; rfl
    | [b0] | [b0, b1] | [b0, b1, b2] | [b0, b1, b2, b3]
    | [b0, b1, b2, b3, c0] | [b0, b1, b2, b3, c0, c1]
    | [b0, b1, b2, b3, c0, c1, c2] =>
      simp [decodeRecordsAux] at h
    | b0 :: b1 :: b2 :: b3 :: c0 :: c1 :: c2 :: c3 :: rest =>
      simp only [decodeRecordsAux] at h
      split at h
      · exact absurd h (by simp)
      · split at h
        · exact absurd h (by simp)
        · rename_i hsize hlen
          revert h
          split
          · rename_i rs' hrec
            intro h
            obtain rfl : (⟨rd4 c0 c1 c2 c3, rest.take (rd4 b0 b1 b2 b3 - 8)⟩ :
                ProxyRecord) :: rs' = rs := by simpa using h
            have hrest : allBytes rest := by
              intro b hb; exact hB b (by simp [hb])
            have htail : encodeRecords rs' = rest.drop (rd4 b0 b1 b2 b3 - 8) :=
              ih _ _ (allBytes_drop _ _ hrest) hrec
            have hlen' : (rest.take (rd4 b0 b1 b2 b3 - 8)).length
                = rd4 b0 b1 b2 b3 - 8 := by
              simp [List.length_take]; omega
            have hsize' : rd4 b0 b1 b2 b3 - 8 + 8 = rd4 b0 b1 b2 b3 := by omega
            have h0 : b0 < 256 := hB b0 (by simp)
            have h1 : b1 < 256 := hB b1 (by simp)
            have h2 : b2 < 256 := hB b2 (by simp)
            have h3 : b3 < 256 := hB b3 (by simp)
            have k0 : c0 < 256 := hB c0 (by simp)
            have k1 : c1 < 256 := hB c1 (by simp)
            have k2 : c2 < 256 := hB c2 (by simp)
            have k3 : c3 < 256 := hB c3 (by simp)
            simp only [encodeRecords, List.map_cons, List.flatten_cons,
              encodeRecord, hlen', hsize', le4_rd4 _ _ _ _ h0 h1 h2 h3,
              le4_rd4 _ _ _ _ k0 k1 k2 k3]
            have : encodeRecords rs' = (rs'.map encodeRecord).flatten := rfl
            rw [← this, htail]
            simp [List.take_append_drop]
          · intro h; exact absurd h (by simp)

theorem encodeRecords_length (rs : List ProxyRecord) :
    (encodeRecords rs).length =
      (rs.map (fun r => r.payload.length + 8)).sum := by
  induction rs with
  | nil => simp [encodeRecords]
  | cons r rs ih =>
    simp [encodeRecords, encodeRecord, le4] at ih ⊢
    omega

/-- Round-trip at the record level: re-encoding the decoded records of
a well-formed blob reproduces its record region byte-for-byte. -/
theorem encodeRecords_decodeRecords (bytes : List Nat) (rs : List ProxyRecord)
    (hB : allBytes bytes) (h : decodeRecords bytes = some rs) :
    encodeRecords rs = bytes :=
  encodeRecords_decodeRecordsAux bytes.length bytes rs hB h

/-- C1: For every well-formed proxy-graphic blob `B` (a byte list accepted
by the decoder), encoding the decoded record sequence of `B` reproduces
`B` byte-for-byte — `encode (decode B) = B` — including when `B` contains
records whose opcodes are not in the known-opcode table (the decoder
preserves every record's opcode and payload verbatim, known or not). -/
theorem proxy_blob_decode_encode_identity (B : List Nat) (rs : List ProxyRecord)
    (hB : allBytes B) (h : decodeBlob B = some rs) :
    encodeBlob rs = B := by
  match B with
  | [] => simp [decodeBlob] at h
  | [b0] | [b0, b1] | [b0, b1, b2] | [b0, b1, b2, b3]
  | [b0, b1, b2, b3, c0] | [b0, b1, b2, b3, c0, c1]
  | [b0, b1, b2, b3, c0, c1, c2] => simp [decodeBlob] at h
  | b0 :: b1 :: b2 :: b3 :: c0 :: c1 :: c2 :: c3 :: rest =>
    simp only [decodeBlob, ne_eq, ite_not] at h
    split at h
    · rename_i hsize
      revert h
      split
      · rename_i rs' hrec
        intro h
        have hB' : allBytes rest := by
          intro b hb; exact hB b (by simp [hb])
        have hbody : encodeRecords rs' = rest :=
          encodeRecords_decodeRecords rest rs' hB' hrec
        have hcount : rd4 c0 c1 c2 c3 = rs'.length ∧ rs = rs' := by
          by_cases hc : rd4 c0 c1 c2 c3 = rs'.length
          · simp [hc] at h; exact ⟨hc, h.symm⟩
          · simp [hc] at h
        obtain ⟨hc, rfl⟩ := hcount
        have h0 : b0 < 256 := hB b0 (by simp)
        have h1 : b1 < 256 := hB b1 (by simp)
        have h2 : b2 < 256 := hB b2 (by simp)
        have h3 : b3 < 256 := hB b3 (by simp)
        have k0 : c0 < 256 := hB c0 (by simp)
        have k1 : c1 < 256 := hB c1 (by simp)
        have k2 : c2 < 256 := hB c2 (by simp)
        have k3 : c3 < 256 := hB c3 (by simp)
        have hlen : (encodeRecords rs).length + 8 = rd4 b0 b1 b2 b3 := by
          rw [hbody]; simp at hsize; omega
        calc encodeBlob rs
            = le4 ((encodeRecords rs).length + 8) ++ le4 rs.length
                ++ encodeRecords rs := rfl
          _ = _ := by
              rw [hlen, hbody, ← hc, le4_rd4 _ _ _ _ h0 h1 h2 h3,
                le4_rd4 _ _ _ _ k0 k1 k2 k3]
              rfl
      · intro h; exact absurd h (by simp)
    · exact absurd h (by simp)

/-- Witness for C1: a concrete two-record blob, one record carrying the
unknown opcode 51 from the sample data, round-trips byte-exactly. -/
theorem proxy_blob_decode_encode_identity_witness :
    decodeBlob (le4 28 ++ le4 2 ++ (le4 12 ++ le4 51 ++ [1, 2, 3, 4])
        ++ (le4 8 ++ le4 7)) =
      some [⟨51, [1, 2, 3, 4]⟩, ⟨7, []⟩] ∧
    encodeBlob [⟨51, [1, 2, 3, 4]⟩, ⟨7, []⟩] =
      le4 28 ++ le4 2 ++ (le4 12 ++ le4 51 ++ [1, 2, 3, 4])
        ++ (le4 8 ++ le4 7) :=
  ⟨by decide, proxy_blob_decode_encode_identity _ _ (by decide) (by decide)⟩

/-! ## Binary chunk transport and sample blobs -/

/-- Hex value of one character, `none` for a non-hex character. -/
def hexVal (c : Char) : Option Nat :=
  if 48 ≤ c.toNat ∧ c.toNat ≤ 57 then some (c.toNat - 48)
  else if 65 ≤ c.toNat ∧ c.toNat ≤ 70 then some (c.toNat - 55)
  else if 97 ≤ c.toNat ∧ c.toNat ≤ 102 then some (c.toNat - 87)
  else none

/-- Decode a hex character list, two characters per byte (accumulator
form, so that evaluation inside the kernel runs in constant stack). -/
def hexBytesAux : List Nat → List Char → Option (List Nat)
  | acc, [] => some acc.reverse
  | _, [_] => none
  | acc, hi :: lo :: rest =>
    match hexVal hi, hexVal lo with
    | some h, some l => hexBytesAux ((16 * h + l) :: acc) rest
    | _, _ => none

/-- Decode a hex character list, two characters per byte. -/
def hexBytes (cs : List Char) : Option (List Nat) := hexBytesAux [] cs

/-- Modelled from the spec: `ezdxf.proxygraphic.load_proxy_graphic` is not
under `src/`.  Spec 4.4: concatenate the hex payloads of the continuation
tags in order, hex-decode, and verify the decoded byte length equals the
declared length from the length tag — mismatch is a fatal decode error. -/
def load_proxy_graphic (declaredLength : Nat) (chunks : List String) :
    Option (List Nat) :=
  match hexBytes (chunks.map String.toList).flatten with
  | some bs => if bs.length = declaredLength then some bs else none
  | none => none

/-- The `310` continuation-tag hex chunks of the `DATA` sample in
`test_239_proxy_graphic.py`; declared length tag (code 160) value 968. -/
def dataChunks : List String := [
  "C80300000D000000540000002000000002000000033E695D8B227240B00D3CF1FB7B5540000000000000000082C85BAC2FDE7240FB1040429FB05740000000000000000000000000000000000000000000000000000000000000F03F5400000020000000020000004AF9442AE7FA60405A2D686189715A4000000000000000",
  "00C0DC003571AE5F40043422DDA4515D40000000000000000000000000000000000000000000000000000000000000F03F64000000040000001EA72DF9806A69402CE3B4E7B59D34400000000000000000770FBC9D50855E4000000000000000000000000000000000000000000000F03FB634003D352CE93FB1DDE561C5C1",
  "E33F00000000000000000418DC3967E1F83F000000000C0000001200000000000000D0000000260000001F8BC5F8B8B46A40197732241FF06140000000000000000000000000000000000000000000000000000000000000F03F0943D77B25BDEF3F417457E0C451C0BF00000000000000003100370032002C003400320000",
  "00000006000000010000000000000000000440000000000000F03F0000000000000000000000000000F03F00000000000000000000000000000000000000000000000000000000000000000000000041007200690061006C00000061007200690061006C002E007400740066000000000000000C00000012000000FF7F0000",
  "6400000004000000813C33FBB3606A400278BF21B8F4614000000000000000009AEFA7C64B37034000000000000000000000000000000000000000000000F03F0943D77B25BDEF3F437457E0C451C0BF0000000000000000182D4454FB210940000000000C00000010000000010000000C0000001700000000000000540000",
  "0020000000020000001EA72DF9806A69402CE3B4E7B59D344000000000000000001EA72DF9806A69402CE3B4E7B59D3440000000000000000000000000000000000000000000000000000000000000F03F540000002000000002000000B296839B8D1A724001000000F06355400000000000000000B296839B8D1A72400100",
  "0000F0635540000000000000000000000000000000000000000000000000000000000000F03F540000002000000002000000632D073753076140FFFFFFFF2F525A400000000000000000632D073753076140FFFFFFFF2F525A40000000000000000000000000000000000000000000000000000000000000F03F5400000020",
  "000000020000000960E446A3456F405AF2DBF448AB604000000000000000000960E446A3456F405AF2DBF448AB6040000000000000000000000000000000000000000000000000000000000000F03F"
]

/-- The `310` continuation-tag hex chunks of the `MULITILEADER` sample in
`test_239_proxy_graphic.py`; declared length tag (code 160) value 640. -/
def multileaderChunks : List String := [
  "80020000170000000C00000016000000000000C00C00000033000000000000000C00000013000000993A0000C800000026000000EC2335956D6D9440F0AEEB8E7B766840000000000000000000000000000000000000000000000000000000000000F03F000000000000F03F00000000000000000000000000000000570034",
  "00310030000000000004000000010000000000000000000840626666666666F23F0000000000000000000000000000F03F0000000000000000000000000000000000000000000000000000000001000000000000000000000072006F006D0061006E0073002E0073006800780000005C00000000000C000000330000000000",
  "00000C000000100000001D0000000C00000016000000000000C00C00000012000000FF7F00000C00000013000000010000000C00000014000000010000005400000007000000030000000EA778BBEFF9934072D00E24B4FE694000000000000000005E00F4D6D4EB9340264DF666FD0B6B40000000000000000028C9814D17",
  "04944016652748DB316A4000000000000000000C00000013000000891300003C00000006000000020000001B387D8403FF9340C41A1BB647186A400000000000000000FB0DD6A357189440F0AEEB8E7BD6684000000000000000000C00000013000000112700003C0000000600000002000000FB0DD6A357189440F0AEEB8E",
  "7BD66840000000000000000080F9275C765D9440F0AEEB8E7BD6684000000000000000000C00000016000000000000C00C00000012000000FF7F00000C00000017000000000000000C000000130000009A3A00000C00000016000000000000C00C00000012000000FF7F00000C00000017000000FFFFFFFF0C000000330000",
  "0000000000"
]

/-- The `310` continuation-tag hex chunks of the `IMAGE` sample in
`test_239_proxy_graphic.py`; declared length tag (code 160) value 344. -/
def imageChunks : List String := [
  "5801000002000000CC0000002600000092B5D7AAA19916C0BF88551BB606F83F000000000000000000000000000000000000000000000000000000000000F03F000000000000F03F00000000000000000000000000000000410063004400620052006100730074006500720049006D0061006700650000000F000000000000",
  "000000000000000000000000000000F03F0000000000000000000000000000F03F0000000000000000000000000000000000000000000000000000000000000000000000000000000074007800740000000000000084000000060000000500000092B5D7AAA19916C0BF88551BB606F83F00000000000000008A21ADA701E6",
  "01C0BF88551BB606F83F00000000000000008A21ADA701E601C06095C5228F990740000000000000000092B5D7AAA19916C06095C5228F990740000000000000000092B5D7AAA19916C0BF88551BB606F83F0000000000000000"
]

/-- Modelled from the spec: symbolic name for an opcode (spec 4.5).  The
known-opcode table is reconstructed from the sample blobs and the record
listings in `test_239_proxy_graphic.py`; opcodes absent from the table
still yield a name `UNKNOWN_TYPE_<opcode>`. -/
def proxyTypeName (op : Nat) : String :=
  match op with
  | 6 => "POLYLINE"
  | 7 => "POLYGON"
  | 16 => "ATTRIBUTE_LAYER"
  | 18 => "ATTRIBUTE_LINETYPE"
  | 19 => "ATTRIBUTE_MARKER"
  | 20 => "ATTRIBUTE_FILL"
  | 22 => "ATTRIBUTE_TRUE_COLOR"
  | 23 => "ATTRIBUTE_LINEWEIGHT"
  | 32 => "POLYLINE_WITH_NORMALS"
  | 38 => "UNICODE_TEXT2"
  | _ => "UNKNOWN_TYPE_" ++ toString op

/-- Byte index, total record size and symbolic type for each record; the
first record starts at index 8, after the blob prelude. -/
def infoOfRecords : Nat → List ProxyRecord → List (Nat × Nat × String)
  | _, [] => []
  | i, r :: rs =>
    (i, r.payload.length + 8, proxyTypeName r.opcode)
      :: infoOfRecords (i + r.payload.length + 8) rs

/-- Modelled from the spec: `ProxyGraphic.info` — enumerate the records of
a blob as (index, size, type name) triples. -/
def info (B : List Nat) : Option (List (Nat × Nat × String)) :=
  (decodeBlob B).map (infoOfRecords 8)

/-- The first sample blob (`DATA`), as loaded through the chunk transport. -/
def sampleBlob1 : List Nat := (load_proxy_graphic 968 dataChunks).getD []

/-- The second sample blob (`MULITILEADER`). -/
def sampleBlob2 : List Nat := (load_proxy_graphic 640 multileaderChunks).getD []

/-! ## Proxy entity materializer

Modelled from the spec (4.6): the materializer is part of
`ezdxf/proxygraphic.py`, which is not under `src/`. -/

/-- Rolling display-attribute state carried across the record sequence
during materialization (spec data model: `ProxyDecoderState`).  The
initial values are the format-defined by-layer defaults of spec 4.6:
color 256, linetype `BYLAYER`, layer `0`, no true-color override. -/
structure ProxyDecoderState where
  color : Nat := 256
  trueColor : Option Nat := none
  layer : String := "0"
  linetype : String := "BYLAYER"
  lineweight : Option Nat := none
  marker : Nat := 0
  deriving DecidableEq, Repr

/-- The reset state at the start of a decode pass. -/
def initState : ProxyDecoderState := {}

/-- First little-endian dword of a payload, 0 when shorter than 4 bytes. -/
def dword0 : List Nat → Nat
  | b0 :: b1 :: b2 :: b3 :: _ => rd4 b0 b1 b2 b3
  | _ => 0

/-- Modelled from the spec: interpret an `ATTRIBUTE_TRUE_COLOR` raw color
dword.  The top byte selects the color method: `0xC2` is a true-color
(RGB) override, `0xC1` by-block, `0xC3` an indexed color; anything else —
`0xC0`, the only method in the sample blobs — means by-layer, which clears
any override back to the spec 4.6 defaults (color 256, no true color). -/
def applyTrueColor (v : Nat) (s : ProxyDecoderState) : ProxyDecoderState :=
  if v / 16777216 = 194 then { s with trueColor := some (v % 16777216) }
  else if v / 16777216 = 193 then { s with color := 0, trueColor := none }
  else if v / 16777216 = 195 then
    { s with color := v % 16777216, trueColor := none }
  else { s with color := 256, trueColor := none }

/-- Modelled from the spec (4.6): attribute records update the rolling
state and never produce an entity.  With no owning document available,
`ATTRIBUTE_LAYER` and `ATTRIBUTE_LINETYPE` records cannot be resolved
against any style table and leave the by-layer defaults in place; any
record that is not one of the tracked attribute kinds leaves the state
unchanged. -/
def updState (r : ProxyRecord) (s : ProxyDecoderState) : ProxyDecoderState :=
  match r.opcode with
  | 16 => s
  | 18 => s
  | 19 => { s with marker := dword0 r.payload }
  | 22 => applyTrueColor (dword0 r.payload) s
  | 23 => { s with lineweight := some (dword0 r.payload) }
  | _ => s

/-- Modelled from the spec (4.6): the geometry record kinds appearing in
the sample blobs — `POLYLINE` (6), `POLYGON` (7),
`POLYLINE_WITH_NORMALS` (32) and `UNICODE_TEXT2` (38) — each produce
exactly one virtual entity. -/
def isGeometry (r : ProxyRecord) : Bool :=
  r.opcode == 6 || r.opcode == 7 || r.opcode == 32 || r.opcode == 38

/-- Geometric payload of a virtual entity. -/
inductive EntityGeom where
  | text (content : String)
  | polyline (vertexCount : Nat) (closed : Bool)
  deriving DecidableEq, Repr

/-- An ephemeral drawing primitive produced by materialization, stamped
with a snapshot of the decoder state at its creation. -/
structure VirtualEntity where
  geom : EntityGeom
  color : Nat
  trueColor : Option Nat
  layer : String
  linetype : String
  lineweight : Option Nat
  marker : Nat
  deriving DecidableEq, Repr

/-- Characters of a null-terminated UTF-16LE byte region. -/
def utf16z : List Nat → List Char
  | lo :: hi :: rest =>
    let u := lo + 256 * hi
    if u = 0 then [] else Char.ofNat u :: utf16z rest
  | _ => []

/-- Modelled from the spec (4.6): build the one virtual entity of a
geometry record from the current state snapshot.  A `UNICODE_TEXT2`
payload carries 72 bytes of placement geometry (three vectors) followed by
the null-terminated UTF-16 string; polyline-family payloads carry the
vertex count as their first dword.  `POLYGON` records are materialized as
closed polylines, the others as open ones. -/
def mkGeomEntity (r : ProxyRecord) (s : ProxyDecoderState) : VirtualEntity :=
  { geom :=
      match r.opcode with
      | 38 => .text (String.mk (utf16z (r.payload.drop 72)))
      | 7 => .polyline (dword0 r.payload) true
      | _ => .polyline (dword0 r.payload) false
    color := s.color
    trueColor := s.trueColor
    layer := s.layer
    linetype := s.linetype
    lineweight := s.lineweight
    marker := s.marker }

/-- Modelled from the spec (4.6): one strict left-to-right pass over the
record sequence.  A geometry record yields exactly one entity stamped with
the current state; every record then feeds `updState` (which only the
tracked attribute records actually change); unrecognized records yield no
entity. -/
def materializeFrom (s : ProxyDecoderState) :
    List ProxyRecord → List VirtualEntity
  | [] => []
  | r :: rs =>
    (if isGeometry r then [mkGeomEntity r s] else [])
      ++ materializeFrom (updState r s) rs

/-- The decoder state after a record sequence has been processed. -/
def stateAfter (s : ProxyDecoderState) : List ProxyRecord → ProxyDecoderState
  | [] => s
  | r :: rs => stateAfter (updState r s) rs

/-- Modelled from the spec: `ProxyGraphic.virtual_entities` — decode a
blob and materialize its records in order, starting from the reset
state. -/
def virtual_entities (B : List Nat) : Option (List VirtualEntity) :=
  (decodeBlob B).map (materializeFrom initState)

/-- C4: the second sample blob decodes into exactly 23 records and
materializes into exactly 4 virtual entities, in order: one TEXT entity
with text content `W410`, then three POLYLINE entities with closed flags
`[true, false, false]` and vertex counts `[3, 2, 2]`; with no owning
style table available all four report layer `0`, color 256 and linetype
`BYLAYER` (and no true-color override). -/
theorem sample_blob2_virtual_entities :
    (load_proxy_graphic 640 multileaderChunks).isSome = true ∧
    (info sampleBlob2).map List.length = some 23 ∧
    virtual_entities sampleBlob2 = some
      [{ geom := .text "W410", color := 256, trueColor := none,
         layer := "0", linetype := "BYLAYER", lineweight := none,
         marker := 15001 },
       { geom := .polyline 3 true, color := 256, trueColor := none,
         layer := "0", linetype := "BYLAYER", lineweight := none,
         marker := 1 },
       { geom := .polyline 2 false, color := 256, trueColor := none,
         layer := "0", linetype := "BYLAYER", lineweight := none,
         marker := 5001 },
       { geom := .polyline 2 false, color := 256, trueColor := none,
         layer := "0", linetype := "BYLAYER", lineweight := none,
         marker := 10001 }] := by
  decide

theorem materializeFrom_append (xs ys : List ProxyRecord) :
    ∀ s, materializeFrom s (xs ++ ys)
      = materializeFrom s xs ++ materializeFrom (stateAfter s xs) ys := by
  induction xs with
  | nil => intro s; rfl
  | cons r rs ih =>
    intro s
    simp [materializeFrom, stateAfter, ih]

/-- C9: a virtual entity materialized from a geometry record is stamped
with the decoder state accumulated over the records strictly before it:
the entity produced for `r` after prefix `pre` is
`mkGeomEntity r (stateAfter initState pre)`, an expression that does not
mention the suffix `suf` — so no attribute record placed after the
geometry record ever affects the entity's display-attribute snapshot. -/
theorem geometry_entity_snapshot_ignores_later_records
    (pre : List ProxyRecord) (r : ProxyRecord) (suf : List ProxyRecord)
    (h : isGeometry r = true) :
    (materializeFrom initState (pre ++ r :: suf))[(materializeFrom initState pre).length]?
      = some (mkGeomEntity r (stateAfter initState pre)) := by
  rw [materializeFrom_append, List.getElem?_append_right (Nat.le_refl _)]
  simp [materializeFrom, h]

/-- Witness for C9: a concrete sequence — a true-color record, a polyline
record, then a further true-color record — where the polyline's snapshot
shows the preceding attribute only. -/
theorem geometry_entity_snapshot_witness :
    isGeometry ⟨6, le4 2⟩ = true ∧
    (materializeFrom initState
        ([⟨22, le4 3254779904⟩] ++ ⟨6, le4 2⟩ ::
          [⟨22, le4 3271557119⟩]))[(materializeFrom initState
            [⟨22, le4 3254779904⟩]).length]?
      = some (mkGeomEntity ⟨6, le4 2⟩
          (stateAfter initState [⟨22, le4 3254779904⟩])) :=
  ⟨by decide,
    geometry_entity_snapshot_ignores_later_records
      [⟨22, le4 3254779904⟩] ⟨6, le4 2⟩ [⟨22, le4 3271557119⟩] (by decide)⟩

/-- C8: the first sample blob, whose declared length tag is 968 bytes,
loads through the chunk transport as 968 bytes and decodes into exactly 13
typed records; the first decoded record starts at byte index 8, has
symbolic type `POLYLINE_WITH_NORMALS`, and its size field is 84 bytes
(84 payload-plus-header bytes, i.e. 76 payload bytes). -/
theorem sample_blob1_decodes_to_13_records :
    (load_proxy_graphic 968 dataChunks).isSome = true ∧
    sampleBlob1.length = 968 ∧
    (info sampleBlob1).map List.length = some 13 ∧
    ((info sampleBlob1).getD []).head? =
      some (8, 84, "POLYLINE_WITH_NORMALS") := by
  decide


/-! ## Tag model, attribute schema and namespace -/

/-- A typed tag value: integer/real scalars (embedded as `Int`), 3D
points, or text. -/
inductive TagValue where
  | int (i : Int)
  | pt (x y z : Int)
  | str (s : String)
  deriving DecidableEq, Repr

/-- One (code, value) unit of the text record stream. -/
structure DXFTag where
  code : Nat
  value : TagValue
  deriving DecidableEq, Repr

/-- DXF format versions, encoded by the numeric part of their `ACxxxx`
code so that the source's string comparison on version codes is mirrored
by numeric order (`DXF12 = 'AC1009' < DXF2000 = 'AC1015'`). -/
def DXF12 : Nat := 1009

/-- `DXF2000 = 'AC1015'`, the minimum version for LEADER export. -/
def DXF2000 : Nat := 1015

/-- Group code of subclass-marker tags (source: `ezdxf.lldxf.const`). -/
def SUBCLASS_MARKER : Nat := 100

/-- Value shape declared by an attribute definition (source:
`ezdxf.lldxf.attributes.XType`; scalar and text shapes are distinguished
here by the value they default to). -/
inductive XType where
  | scalar
  | point3d
  | text
  deriving DecidableEq, Repr

/-- One named, schema-declared attribute (source:
`ezdxf.lldxf.attributes.DXFAttr`): tag code, value shape, default,
optional flag and minimum format version (none of the attributes modelled
here declares one, so it defaults to `DXF12`). -/
structure DXFAttr where
  name : String
  code : Nat
  xtype : XType := .scalar
  default : TagValue
  optional : Bool := false
  minVersion : Nat := DXF12
  deriving DecidableEq, Repr

/-- `DXFAttr(10, xtype=point3d, default=(0,0,0))` named `start`. -/
def attrStart : DXFAttr :=
  { name := "start", code := 10, xtype := .point3d, default := .pt 0 0 0 }

/-- `DXFAttr(11, xtype=point3d, default=(0,0,0))` named `end`. -/
def attrEnd : DXFAttr :=
  { name := "end", code := 11, xtype := .point3d, default := .pt 0 0 0 }

/-- `DXFAttr(39, default=0, optional=True)` named `thickness`. -/
def attrThickness : DXFAttr :=
  { name := "thickness", code := 39, default := .int 0, optional := true }

/-- `DXFAttr(210, xtype=point3d, default=(0,0,1), optional=True)` named
`extrusion`. -/
def attrExtrusion : DXFAttr :=
  { name := "extrusion", code := 210, xtype := .point3d,
    default := .pt 0 0 1, optional := true }

/-- The `AcDbLine` subclass schema (source: `entities/line.py`). -/
def acdb_line : List DXFAttr :=
  [attrStart, attrEnd, attrThickness, attrExtrusion]

/-- The `AcDbLeader` subclass schema (source: `entities/leader.py`).
Code 76 (number of vertices) deliberately has no attribute definition. -/
def acdb_leader : List DXFAttr :=
  [{ name := "dimstyle", code := 3, xtype := .text,
     default := .str "Standard" },
   { name := "has_arrowhead", code := 71, default := .int 1,
     optional := true },
   { name := "path_type", code := 72, default := .int 0, optional := true },
   { name := "annotation_type", code := 73, default := .int 3 },
   { name := "hookline_direction", code := 74, default := .int 1,
     optional := true },
   { name := "has_hookline", code := 75, default := .int 1,
     optional := true },
   { name := "text_height", code := 40, default := .int 1,
     optional := true },
   { name := "text_width", code := 41, default := .int 0,
     optional := true },
   { name := "block_color", code := 77, default := .int 7,
     optional := true },
   { name := "annotation_handle", code := 340, xtype := .text,
     default := .str "0", optional := true },
   { name := "normal_vector", code := 210, xtype := .point3d,
     default := .pt 0 0 1, optional := true },
   { name := "horizontal_direction", code := 211, xtype := .point3d,
     default := .pt 1 0 0, optional := true },
   { name := "leader_offset_block_ref", code := 212, xtype := .point3d,
     default := .pt 0 0 0, optional := true },
   { name := "leader_offset_annotation_placement", code := 213,
     xtype := .point3d, default := .pt 0 0 0, optional := true }]

/-- Runtime value store for one entity: the explicitly set attributes,
most recent first (source: `DXFNamespace`, whose explicitly set
attributes are plain instance attributes). -/
abbrev Namespace := List (String × TagValue)

/-- An attribute is explicit when a value for it is stored. -/
def isExplicit (ns : Namespace) (nm : String) : Bool :=
  (ns.lookup nm).isSome

/-- Store a value, marking the attribute explicit. -/
def nsSet (nm : String) (v : TagValue) (ns : Namespace) : Namespace :=
  (nm, v) :: ns

/-- Spec 4.1 `get`: the stored value, or the definition's default; `none`
only for names unknown to the schema. -/
def nsGet (schema : List DXFAttr) (ns : Namespace) (nm : String) :
    Option TagValue :=
  match ns.lookup nm with
  | some v => some v
  | none => (schema.find? (fun a => a.name == nm)).map (fun a => a.default)

/-- A wire value structurally compatible with a declared shape. -/
def compatible (x : XType) (v : TagValue) : Bool :=
  match x, v with
  | .scalar, .int _ => true
  | .point3d, .pt _ _ _ => true
  | .text, .str _ => true
  | _, _ => false

/-- Spec 4.1/3.: every stored value conforms to its attribute's declared
shape, and only schema attribute names are stored. -/
def wfNamespace (schema : List DXFAttr) (ns : Namespace) : Bool :=
  ns.all fun p =>
    match schema.find? (fun a => a.name == p.1) with
    | some a => compatible a.xtype p.2
    | none => false

/-- Modelled from the spec:
`SubclassProcessor.load_dxfattribs_into_namespace`
(`entities/dxfentity.py` is not under `src/`).  Spec 4.2: walk the tag
sequence in order; subclass-marker tags are structural and consumed; a
tag whose code matches an attribute definition is validated against the
declared shape — a structurally incompatible wire value is a fatal
per-entity error — and stored as explicit; a tag matching nothing is
returned to the caller as unrecognized, in file order, never an error. -/
def load_dxfattribs_into_namespace (schema : List DXFAttr) (ns : Namespace) :
    List DXFTag → Except String (Namespace × List DXFTag)
  | [] => .ok (ns, [])
  | t :: ts =>
    if t.code = SUBCLASS_MARKER then
      load_dxfattribs_into_namespace schema ns ts
    else
      match schema.find? (fun a => a.code == t.code) with
      | some a =>
        if compatible a.xtype t.value then
          load_dxfattribs_into_namespace schema (nsSet a.name t.value ns) ts
        else .error ("incompatible value for attribute " ++ a.name)
      | none =>
        match load_dxfattribs_into_namespace schema ns ts with
        | .ok (ns', rest) => .ok (ns', t :: rest)
        | .error e => .error e

/-- Modelled from the spec: export of one attribute (spec 4.3): skip when
the target version is below the attribute's minimum version; skip when
optional and the stored value is unset or equals the default; otherwise
emit one tag with the attribute's code and the stored (or default)
value. -/
def export_dxf_attrib (a : DXFAttr) (ns : Namespace) (v : Nat) :
    Option DXFTag :=
  if v < a.minVersion then none
  else
    match ns.lookup a.name with
    | some val =>
      if a.optional && (val == a.default) then none else some ⟨a.code, val⟩
    | none => if a.optional then none else some ⟨a.code, a.default⟩

/-- Modelled from the spec: `DXFNamespace.export_dxf_attribs` — emit the
named attributes in the given order (spec 4.3). -/
def export_dxf_attribs (schema : List DXFAttr) (names : List String)
    (ns : Namespace) (v : Nat) : List DXFTag :=
  names.filterMap fun nm =>
    (schema.find? (fun a => a.name == nm)).bind
      (fun a => export_dxf_attrib a ns v)

/-- `Line.load_dxf_attribs` (source: `entities/line.py`): process the
`AcDbLine` subclass; leftover tags are only logged, never stored. -/
def lineLoadDxfAttribs (tags : List DXFTag) :
    Except String (Namespace × List DXFTag) :=
  load_dxfattribs_into_namespace acdb_line [] tags

/-- `Line.export_entity` (source: `entities/line.py`): the subclass
marker only for target versions newer than DXF12, then the four
`AcDbLine` attributes, in order, for all DXF versions. -/
def lineExportEntity (ns : Namespace) (v : Nat) : List DXFTag :=
  (if DXF12 < v then [⟨SUBCLASS_MARKER, .str "AcDbLine"⟩] else [])
    ++ export_dxf_attribs acdb_line ["start", "end", "thickness", "extrusion"]
        ns v

theorem wf_lookup (schema : List DXFAttr) (ns : Namespace) (nm : String)
    (v : TagValue) (hwf : wfNamespace schema ns = true)
    (h : ns.lookup nm = some v) :
    ∃ a, schema.find? (fun a => a.name == nm) = some a ∧
      compatible a.xtype v = true := by
  induction ns with
  | nil => simp [List.lookup] at h
  | cons p rest ih =>
    obtain ⟨k, w⟩ := p
    simp only [wfNamespace, List.all_cons, Bool.and_eq_true] at hwf
    obtain ⟨h1, h2⟩ := hwf
    simp only [List.lookup] at h
    by_cases he : nm = k
    · subst he
      simp only [beq_self_eq_true] at h
      obtain rfl : w = v := by simpa using h
      revert h1
      split
      · rename_i a ha
        intro hc
        exact ⟨a, ha, hc⟩
      · intro hf; exact absurd hf (by simp)
    · have hb : (nm == k) = false := by simpa using he
      rw [hb] at h
      exact ih (by simpa [wfNamespace] using h2) h

/-- The Line namespace with exactly the given attributes explicitly set. -/
def mkLineNamespace (os oe : Option (Int × Int × Int)) (ot : Option Int)
    (ox : Option (Int × Int × Int)) : Namespace :=
  (os.toList.map fun p => ("start", TagValue.pt p.1 p.2.1 p.2.2))
    ++ (oe.toList.map fun p => ("end", TagValue.pt p.1 p.2.1 p.2.2))
    ++ (ot.toList.map fun i => ("thickness", TagValue.int i))
    ++ (ox.toList.map fun p => ("extrusion", TagValue.pt p.1 p.2.1 p.2.2))

/-- 3D point as a tag value. -/
def ptVal (p : Int × Int × Int) : TagValue := .pt p.1 p.2.1 p.2.2

theorem lookup_mkLine_start (os oe : Option (Int × Int × Int))
    (ot : Option Int) (ox : Option (Int × Int × Int)) :
    (mkLineNamespace os oe ot ox).lookup "start" = os.map ptVal := by
  rcases os <;> rcases oe <;> rcases ot <;> rcases ox <;>
    simp [mkLineNamespace, List.lookup, ptVal]

theorem lookup_mkLine_end (os oe : Option (Int × Int × Int))
    (ot : Option Int) (ox : Option (Int × Int × Int)) :
    (mkLineNamespace os oe ot ox).lookup "end" = oe.map ptVal := by
  rcases os <;> rcases oe <;> rcases ot <;> rcases ox <;>
    simp [mkLineNamespace, List.lookup, ptVal]

theorem lookup_mkLine_thickness (os oe : Option (Int × Int × Int))
    (ot : Option Int) (ox : Option (Int × Int × Int)) :
    (mkLineNamespace os oe ot ox).lookup "thickness" = ot.map TagValue.int := by
  rcases os <;> rcases oe <;> rcases ot <;> rcases ox <;>
    simp [mkLineNamespace, List.lookup]

theorem lookup_mkLine_extrusion (os oe : Option (Int × Int × Int))
    (ot : Option Int) (ox : Option (Int × Int × Int)) :
    (mkLineNamespace os oe ot ox).lookup "extrusion" = ox.map ptVal := by
  rcases os <;> rcases oe <;> rcases ot <;> rcases ox <;>
    simp [mkLineNamespace, List.lookup, ptVal]

theorem lookup_mkLine_other (os oe : Option (Int × Int × Int))
    (ot : Option Int) (ox : Option (Int × Int × Int)) (nm : String)
    (h1 : nm ≠ "start") (h2 : nm ≠ "end") (h3 : nm ≠ "thickness")
    (h4 : nm ≠ "extrusion") :
    (mkLineNamespace os oe ot ox).lookup nm = none := by
  rcases os <;> rcases oe <;> rcases ot <;> rcases ox <;>
    simp [mkLineNamespace, List.lookup,
      beq_eq_false_iff_ne.mpr h1, beq_eq_false_iff_ne.mpr h2,
      beq_eq_false_iff_ne.mpr h3, beq_eq_false_iff_ne.mpr h4]

theorem find_name_start :
    acdb_line.find? (fun a => a.name == "start") = some attrStart := rfl

theorem find_name_end :
    acdb_line.find? (fun a => a.name == "end") = some attrEnd := rfl

theorem find_name_thickness :
    acdb_line.find? (fun a => a.name == "thickness") = some attrThickness :=
  rfl

theorem find_name_extrusion :
    acdb_line.find? (fun a => a.name == "extrusion") = some attrExtrusion :=
  rfl

theorem export_attrStart (os oe : Option (Int × Int × Int)) (ot : Option Int)
    (ox : Option (Int × Int × Int)) (v : Nat) (hv : DXF12 ≤ v) :
    export_dxf_attrib attrStart (mkLineNamespace os oe ot ox) v
      = some ⟨10, ptVal (os.getD (0, 0, 0))⟩ := by
  have hnv : ¬ (v < DXF12) := by omega
  simp only [export_dxf_attrib, attrStart, lookup_mkLine_start]
  rcases os <;> simp [hnv, ptVal]

theorem export_attrEnd (os oe : Option (Int × Int × Int)) (ot : Option Int)
    (ox : Option (Int × Int × Int)) (v : Nat) (hv : DXF12 ≤ v) :
    export_dxf_attrib attrEnd (mkLineNamespace os oe ot ox) v
      = some ⟨11, ptVal (oe.getD (0, 0, 0))⟩ := by
  have hnv : ¬ (v < DXF12) := by omega
  simp only [export_dxf_attrib, attrEnd, lookup_mkLine_end]
  rcases oe <;> simp [hnv, ptVal]

theorem export_attrThickness (os oe : Option (Int × Int × Int))
    (ot : Option Int) (ox : Option (Int × Int × Int)) (v : Nat)
    (hv : DXF12 ≤ v) :
    export_dxf_attrib attrThickness (mkLineNamespace os oe ot ox) v
      = (match ot with
         | none => none
         | some t => if t = 0 then none else some ⟨39, .int t⟩) := by
  have hnv : ¬ (v < DXF12) := by omega
  simp only [export_dxf_attrib, attrThickness, lookup_mkLine_thickness]
  rcases ot with _ | t
  · simp [hnv]
  · by_cases ht : t = 0 <;> simp [hnv, ht]

theorem export_attrExtrusion (os oe : Option (Int × Int × Int))
    (ot : Option Int) (ox : Option (Int × Int × Int)) (v : Nat)
    (hv : DXF12 ≤ v) :
    export_dxf_attrib attrExtrusion (mkLineNamespace os oe ot ox) v
      = (match ox with
         | none => none
         | some p =>
           if p = (0, 0, 1) then none else some ⟨210, ptVal p⟩) := by
  have hnv : ¬ (v < DXF12) := by omega
  simp only [export_dxf_attrib, attrExtrusion, lookup_mkLine_extrusion]
  rcases ox with _ | ⟨⟨xx, xy, xz⟩⟩
  · simp [hnv]
  · simp only [Option.map_some, Prod.mk.injEq, ptVal]
    by_cases hx : xx = 0 ∧ xy = 0 ∧ xz = 1 <;> simp [hnv, hx, ptVal]

/-- The tags the export pipeline emits for the `AcDbLine` attributes of
the namespace with the given explicit values. -/
def lineBodyTags (os oe : Option (Int × Int × Int)) (ot : Option Int)
    (ox : Option (Int × Int × Int)) : List DXFTag :=
  ⟨10, ptVal (os.getD (0, 0, 0))⟩ :: ⟨11, ptVal (oe.getD (0, 0, 0))⟩ ::
    ((match ot with
      | none => []
      | some t => if t = 0 then [] else [⟨39, .int t⟩])
     ++ (match ox with
      | none => []
      | some p => if p = (0, 0, 1) then [] else [⟨210, ptVal p⟩]))

theorem lineExport_eval (os oe : Option (Int × Int × Int)) (ot : Option Int)
    (ox : Option (Int × Int × Int)) (v : Nat) (hv : DXF12 ≤ v) :
    lineExportEntity (mkLineNamespace os oe ot ox) v
      = (if DXF12 < v then [⟨SUBCLASS_MARKER, .str "AcDbLine"⟩] else [])
        ++ lineBodyTags os oe ot ox := by
  simp only [lineExportEntity, export_dxf_attribs, List.filterMap_cons,
    List.filterMap_nil, find_name_start, find_name_end, find_name_thickness,
    find_name_extrusion, Option.some_bind,
    export_attrStart os oe ot ox v hv, export_attrEnd os oe ot ox v hv,
    export_attrThickness os oe ot ox v hv,
    export_attrExtrusion os oe ot ox v hv, lineBodyTags]
  rcases ot with _ | t <;> rcases ox with _ | ⟨⟨xx, xy, xz⟩⟩
  · simp
  · simp only [Prod.mk.injEq]
    by_cases hx : xx = 0 ∧ xy = 0 ∧ xz = 1 <;> simp [hx]
  · by_cases ht : t = 0 <;> simp [ht]
  · simp only [Prod.mk.injEq]
    by_cases ht : t = 0 <;> by_cases hx : xx = 0 ∧ xy = 0 ∧ xz = 1 <;>
      simp [ht, hx]

theorem find_code_10 :
    acdb_line.find? (fun a => a.code == (10 : Nat)) = some attrStart := rfl

theorem find_code_11 :
    acdb_line.find? (fun a => a.code == (11 : Nat)) = some attrEnd := rfl

theorem find_code_39 :
    acdb_line.find? (fun a => a.code == (39 : Nat)) = some attrThickness :=
  rfl

theorem find_code_210 :
    acdb_line.find? (fun a => a.code == (210 : Nat)) = some attrExtrusion :=
  rfl

theorem load_nil (schema : List DXFAttr) (ns : Namespace) :
    load_dxfattribs_into_namespace schema ns [] = .ok (ns, []) := rfl

theorem load_step_marker (schema : List DXFAttr) (ns : Namespace)
    (w : TagValue) (ts : List DXFTag) :
    load_dxfattribs_into_namespace schema ns (⟨SUBCLASS_MARKER, w⟩ :: ts)
      = load_dxfattribs_into_namespace schema ns ts := by
  simp [load_dxfattribs_into_namespace]

theorem load_step_start (ns : Namespace) (ts : List DXFTag) (x y z : Int) :
    load_dxfattribs_into_namespace acdb_line ns (⟨10, .pt x y z⟩ :: ts)
      = load_dxfattribs_into_namespace acdb_line
          (("start", TagValue.pt x y z) :: ns) ts := by
  simp only [load_dxfattribs_into_namespace, SUBCLASS_MARKER, find_code_10]
  norm_num [attrStart, compatible, nsSet]

theorem load_step_end (ns : Namespace) (ts : List DXFTag) (x y z : Int) :
    load_dxfattribs_into_namespace acdb_line ns (⟨11, .pt x y z⟩ :: ts)
      = load_dxfattribs_into_namespace acdb_line
          (("end", TagValue.pt x y z) :: ns) ts := by
  simp only [load_dxfattribs_into_namespace, SUBCLASS_MARKER, find_code_11]
  norm_num [attrEnd, compatible, nsSet]

theorem load_step_thickness (ns : Namespace) (ts : List DXFTag) (t : Int) :
    load_dxfattribs_into_namespace acdb_line ns (⟨39, .int t⟩ :: ts)
      = load_dxfattribs_into_namespace acdb_line
          (("thickness", TagValue.int t) :: ns) ts := by
  simp only [load_dxfattribs_into_namespace, SUBCLASS_MARKER, find_code_39]
  norm_num [attrThickness, compatible, nsSet]

theorem load_step_extrusion (ns : Namespace) (ts : List DXFTag) (x y z : Int) :
    load_dxfattribs_into_namespace acdb_line ns (⟨210, .pt x y z⟩ :: ts)
      = load_dxfattribs_into_namespace acdb_line
          (("extrusion", TagValue.pt x y z) :: ns) ts := by
  simp only [load_dxfattribs_into_namespace, SUBCLASS_MARKER, find_code_210]
  norm_num [attrExtrusion, compatible, nsSet]

/-- The explicit entries of the namespace produced by re-loading the
exported `AcDbLine` tags, most recently consumed first. -/
def linePairs (os oe : Option (Int × Int × Int)) (ot : Option Int)
    (ox : Option (Int × Int × Int)) : Namespace :=
  (match ox with
   | none => []
   | some p => if p = (0, 0, 1) then [] else [("extrusion", ptVal p)])
  ++ (match ot with
   | none => []
   | some t => if t = 0 then [] else [("thickness", TagValue.int t)])
  ++ [("end", ptVal (oe.getD (0, 0, 0))), ("start", ptVal (os.getD (0, 0, 0)))]

theorem load_lineBody (os oe : Option (Int × Int × Int)) (ot : Option Int)
    (ox : Option (Int × Int × Int)) (ns0 : Namespace) :
    load_dxfattribs_into_namespace acdb_line ns0 (lineBodyTags os oe ot ox)
      = .ok (linePairs os oe ot ox ++ ns0, []) := by
  simp only [lineBodyTags, ptVal, load_step_start, load_step_end]
  rcases ot with _ | t <;> rcases ox with _ | ⟨⟨xx, xy, xz⟩⟩
  · simp [linePairs, load_nil, ptVal]
  · simp only [Prod.mk.injEq, linePairs, List.nil_append]
    by_cases hx : xx = 0 ∧ xy = 0 ∧ xz = 1 <;>
      simp [hx, load_step_extrusion, load_nil, ptVal]
  · simp only [linePairs, List.append_nil]
    by_cases ht : t = 0 <;>
      simp [ht, load_step_thickness, load_nil, ptVal]
  · simp only [Prod.mk.injEq, linePairs]
    by_cases ht : t = 0 <;> by_cases hx : xx = 0 ∧ xy = 0 ∧ xz = 1 <;>
      simp [ht, hx, load_step_thickness, load_step_extrusion, load_nil, ptVal]

theorem lineLoad_of_export (os oe : Option (Int × Int × Int)) (ot : Option Int)
    (ox : Option (Int × Int × Int)) (v : Nat) (hv : DXF12 ≤ v) :
    lineLoadDxfAttribs (lineExportEntity (mkLineNamespace os oe ot ox) v)
      = .ok (linePairs os oe ot ox, []) := by
  rw [lineExport_eval os oe ot ox v hv]
  simp only [lineLoadDxfAttribs]
  by_cases hm : DXF12 < v
  · simpa [hm, load_step_marker] using load_lineBody os oe ot ox []
  · simpa [hm] using load_lineBody os oe ot ox []

theorem lookup_linePairs_start (os oe : Option (Int × Int × Int))
    (ot : Option Int) (ox : Option (Int × Int × Int)) :
    (linePairs os oe ot ox).lookup "start"
      = some (ptVal (os.getD (0, 0, 0))) := by
  rcases ot with _ | t <;> rcases ox with _ | ⟨⟨xx, xy, xz⟩⟩ <;>
    simp only [linePairs, Prod.mk.injEq] <;>
    (try by_cases ht : t = 0) <;>
    (try by_cases hx : xx = 0 ∧ xy = 0 ∧ xz = 1) <;>
    (try rw [if_pos hx]) <;> (try rw [if_neg hx]) <;>
    (try rw [if_pos ht]) <;> (try rw [if_neg ht]) <;>
    simp_all [List.lookup]

theorem lookup_linePairs_end (os oe : Option (Int × Int × Int))
    (ot : Option Int) (ox : Option (Int × Int × Int)) :
    (linePairs os oe ot ox).lookup "end"
      = some (ptVal (oe.getD (0, 0, 0))) := by
  rcases ot with _ | t <;> rcases ox with _ | ⟨⟨xx, xy, xz⟩⟩ <;>
    simp only [linePairs, Prod.mk.injEq] <;>
    (try by_cases ht : t = 0) <;>
    (try by_cases hx : xx = 0 ∧ xy = 0 ∧ xz = 1) <;>
    (try rw [if_pos hx]) <;> (try rw [if_neg hx]) <;>
    (try rw [if_pos ht]) <;> (try rw [if_neg ht]) <;>
    simp_all [List.lookup]

theorem lookup_linePairs_thickness (os oe : Option (Int × Int × Int))
    (ot : Option Int) (ox : Option (Int × Int × Int)) :
    (linePairs os oe ot ox).lookup "thickness"
      = (match ot with
         | none => none
         | some t => if t = 0 then none else some (TagValue.int t)) := by
  rcases ot with _ | t <;> rcases ox with _ | ⟨⟨xx, xy, xz⟩⟩ <;>
    simp only [linePairs, Prod.mk.injEq] <;>
    (try by_cases ht : t = 0) <;>
    (try by_cases hx : xx = 0 ∧ xy = 0 ∧ xz = 1) <;>
    (try rw [if_pos hx]) <;> (try rw [if_neg hx]) <;>
    (try rw [if_pos ht]) <;> (try rw [if_neg ht]) <;>
    simp_all [List.lookup]

theorem lookup_linePairs_extrusion (os oe : Option (Int × Int × Int))
    (ot : Option Int) (ox : Option (Int × Int × Int)) :
    (linePairs os oe ot ox).lookup "extrusion"
      = (match ox with
         | none => none
         | some p => if p = (0, 0, 1) then none else some (ptVal p)) := by
  rcases ot with _ | t <;> rcases ox with _ | ⟨⟨xx, xy, xz⟩⟩ <;>
    simp only [linePairs, Prod.mk.injEq] <;>
    (try by_cases ht : t = 0) <;>
    (try by_cases hx : xx = 0 ∧ xy = 0 ∧ xz = 1) <;>
    (try rw [if_pos hx]) <;> (try rw [if_neg hx]) <;>
    (try rw [if_pos ht]) <;> (try rw [if_neg ht]) <;>
    simp_all [List.lookup]

theorem lookup_linePairs_other (os oe : Option (Int × Int × Int))
    (ot : Option Int) (ox : Option (Int × Int × Int)) (nm : String)
    (h1 : nm ≠ "start") (h2 : nm ≠ "end") (h3 : nm ≠ "thickness")
    (h4 : nm ≠ "extrusion") :
    (linePairs os oe ot ox).lookup nm = none := by
  rcases ot with _ | t <;> rcases ox with _ | ⟨⟨xx, xy, xz⟩⟩ <;>
    simp only [linePairs, Prod.mk.injEq] <;>
    (try by_cases ht : t = 0) <;>
    (try by_cases hx : xx = 0 ∧ xy = 0 ∧ xz = 1) <;>
    (try rw [if_pos hx]) <;> (try rw [if_neg hx]) <;>
    (try rw [if_pos ht]) <;> (try rw [if_neg ht]) <;>
    simp_all [List.lookup, beq_eq_false_iff_ne.mpr h1,
      beq_eq_false_iff_ne.mpr h2, beq_eq_false_iff_ne.mpr h3,
      beq_eq_false_iff_ne.mpr h4]

theorem nsGet_linePairs_eq (os oe : Option (Int × Int × Int))
    (ot : Option Int) (ox : Option (Int × Int × Int)) (nm : String) :
    nsGet acdb_line (linePairs os oe ot ox) nm
      = nsGet acdb_line (mkLineNamespace os oe ot ox) nm := by
  by_cases h1 : nm = "start"
  · subst h1
    simp only [nsGet, lookup_linePairs_start, lookup_mkLine_start]
    rcases os <;> simp [ptVal, find_name_start, attrStart]
  by_cases h2 : nm = "end"
  · subst h2
    simp only [nsGet, lookup_linePairs_end, lookup_mkLine_end]
    rcases oe <;> simp [ptVal, find_name_end, attrEnd]
  by_cases h3 : nm = "thickness"
  · subst h3
    simp only [nsGet, lookup_linePairs_thickness, lookup_mkLine_thickness]
    rcases ot with _ | t
    · simp
    · by_cases ht : t = 0 <;>
        simp [ht, find_name_thickness, attrThickness]
  by_cases h4 : nm = "extrusion"
  · subst h4
    simp only [nsGet, lookup_linePairs_extrusion, lookup_mkLine_extrusion]
    rcases ox with _ | ⟨⟨xx, xy, xz⟩⟩
    · simp
    · simp only [Prod.mk.injEq, Option.map_some]
      by_cases hx : xx = 0 ∧ xy = 0 ∧ xz = 1 <;>
        simp [hx, find_name_extrusion, attrExtrusion, ptVal]
  simp only [nsGet, lookup_linePairs_other os oe ot ox nm h1 h2 h3 h4,
    lookup_mkLine_other os oe ot ox nm h1 h2 h3 h4]

/-- C2: exporting a Line namespace at any target format version and then
loading the resulting tag sequence yields a namespace with the same
`get` value on every attribute (hence equal on every explicitly set
attribute); an attribute that was explicitly set but comes back unset is
an optional attribute whose reloaded `get` value still equals its
default.  The namespace ranges over all settings of the four `AcDbLine`
attributes. -/
theorem line_export_then_load_roundtrip (os oe : Option (Int × Int × Int))
    (ot : Option Int) (ox : Option (Int × Int × Int)) (v : Nat)
    (hv : DXF12 ≤ v) :
    ∃ ns₂ : Namespace,
      lineLoadDxfAttribs (lineExportEntity (mkLineNamespace os oe ot ox) v)
        = .ok (ns₂, []) ∧
      (∀ nm, nsGet acdb_line ns₂ nm
          = nsGet acdb_line (mkLineNamespace os oe ot ox) nm) ∧
      (∀ nm, isExplicit (mkLineNamespace os oe ot ox) nm = true →
        isExplicit ns₂ nm = false →
        ∃ a, a ∈ acdb_line ∧ a.name = nm ∧ a.optional = true ∧
          nsGet acdb_line ns₂ nm = some a.default) := by
  refine ⟨linePairs os oe ot ox, lineLoad_of_export os oe ot ox v hv,
    fun nm => nsGet_linePairs_eq os oe ot ox nm, ?_⟩
  intro nm h1 h2
  by_cases hs : nm = "start"
  · subst hs; simp [isExplicit, lookup_linePairs_start] at h2
  by_cases he : nm = "end"
  · subst he; simp [isExplicit, lookup_linePairs_end] at h2
  by_cases hth : nm = "thickness"
  · subst hth
    rcases ot with _ | t
    · simp [isExplicit, lookup_mkLine_thickness] at h1
    · refine ⟨attrThickness, by simp [acdb_line], rfl, rfl, ?_⟩
      simp only [isExplicit, lookup_linePairs_thickness] at h2
      by_cases ht : t = 0
      · subst ht
        simp [nsGet, lookup_linePairs_thickness, find_name_thickness,
          attrThickness]
      · simp [ht] at h2
  by_cases hx : nm = "extrusion"
  · subst hx
    rcases ox with _ | p
    · simp [isExplicit, lookup_mkLine_extrusion] at h1
    · refine ⟨attrExtrusion, by simp [acdb_line], rfl, rfl, ?_⟩
      simp only [isExplicit, lookup_linePairs_extrusion] at h2
      by_cases hp : p = ((0 : Int), (0 : Int), (1 : Int))
      · subst hp
        simp [nsGet, lookup_linePairs_extrusion, find_name_extrusion,
          attrExtrusion, ptVal]
      · simp [hp] at h2
  · simp [isExplicit, lookup_mkLine_other os oe ot ox nm hs he hth hx] at h1

/-- Witness for C2 at a concrete namespace — explicit start and end
points, thickness explicitly set to its default 0 (which reloads as
unset), no explicit extrusion — exported at DXF2000. -/
theorem line_export_then_load_roundtrip_witness :
    DXF12 ≤ DXF2000 ∧
    (∃ ns₂ : Namespace,
      lineLoadDxfAttribs (lineExportEntity
          (mkLineNamespace (some (1, 2, 3)) (some (4, 5, 6)) (some 0) none)
          DXF2000)
        = .ok (ns₂, []) ∧
      (∀ nm, nsGet acdb_line ns₂ nm
          = nsGet acdb_line
              (mkLineNamespace (some (1, 2, 3)) (some (4, 5, 6)) (some 0)
                none) nm) ∧
      (∀ nm, isExplicit (mkLineNamespace (some (1, 2, 3)) (some (4, 5, 6))
            (some 0) none) nm = true →
        isExplicit ns₂ nm = false →
        ∃ a, a ∈ acdb_line ∧ a.name = nm ∧ a.optional = true ∧
          nsGet acdb_line ns₂ nm = some a.default)) :=
  ⟨by decide,
    line_export_then_load_roundtrip (some (1, 2, 3)) (some (4, 5, 6))
      (some 0) none DXF2000 (by decide)⟩

/-- A tag sequence contains a subclass-marker tag. -/
def hasSubclassMarker (ts : List DXFTag) : Bool :=
  ts.any (fun t => t.code == SUBCLASS_MARKER)

theorem mem_export_code (schema : List DXFAttr) (names : List String)
    (ns : Namespace) (v : Nat) (t : DXFTag)
    (h : t ∈ export_dxf_attribs schema names ns v) :
    ∃ a ∈ schema, t.code = a.code := by
  simp only [export_dxf_attribs, List.mem_filterMap] at h
  obtain ⟨nm, -, heq⟩ := h
  cases hfind : schema.find? (fun a => a.name == nm) with
  | none => simp [hfind] at heq
  | some a =>
    refine ⟨a, List.mem_of_find?_eq_some hfind, ?_⟩
    simp only [hfind, Option.some_bind, export_dxf_attrib] at heq
    split at heq
    · exact absurd heq (by simp)
    · revert heq
      split
      · split
        · intro heq; exact absurd heq (by simp)
        · intro heq; cases heq; rfl
      · split
        · intro heq; exact absurd heq (by simp)
        · intro heq; cases heq; rfl

theorem line_export_no_marker_in_body (ns : Namespace) (v : Nat)
    (t : DXFTag)
    (h : t ∈ export_dxf_attribs acdb_line
      ["start", "end", "thickness", "extrusion"] ns v) :
    (t.code == SUBCLASS_MARKER) = false := by
  obtain ⟨a, ha, hcode⟩ := mem_export_code _ _ _ _ _ h
  simp only [acdb_line, List.mem_cons] at ha
  rcases ha with rfl | rfl | rfl | rfl | h'
  · simp [hcode, attrStart, SUBCLASS_MARKER]
  · simp [hcode, attrEnd, SUBCLASS_MARKER]
  · simp [hcode, attrThickness, SUBCLASS_MARKER]
  · simp [hcode, attrExtrusion, SUBCLASS_MARKER]
  · cases h'

/-- `LEADER` entity state: schema-driven namespace plus the non-schema
vertex list (source: `entities/leader.py`). -/
structure LeaderState where
  dxf : Namespace
  vertices : List TagValue
  deriving DecidableEq, Repr

/-- `Leader.export_vertices` (source: `entities/leader.py`): one count
tag (code 76) computed fresh as the length of the vertex list, then one
code-10 tag per vertex. -/
def leaderExportVertices (L : LeaderState) : List DXFTag :=
  ⟨76, .int L.vertices.length⟩ :: L.vertices.map (fun w => ⟨10, w⟩)

/-- `Leader.export_entity` (source: `entities/leader.py`): the
`AcDbLeader` subclass marker is written unconditionally, then the first
attribute group, the vertices, and the second attribute group. -/
def leaderExportEntity (L : LeaderState) (v : Nat) : List DXFTag :=
  ⟨SUBCLASS_MARKER, .str "AcDbLeader"⟩ ::
    (export_dxf_attribs acdb_leader
      ["dimstyle", "has_arrowhead", "path_type", "annotation_type",
       "hookline_direction", "has_hookline", "text_height", "text_width"]
      L.dxf v
     ++ leaderExportVertices L
     ++ export_dxf_attribs acdb_leader
      ["block_color", "annotation_handle", "normal_vector",
       "horizontal_direction", "leader_offset_block_ref",
       "leader_offset_annotation_placement"] L.dxf v)

/-- `Leader.preprocess_export` (source: `entities/leader.py`): export is
vetoed when the entity has fewer than 2 vertices. -/
def leader_preprocess_export (L : LeaderState) : Bool :=
  !(L.vertices.length < 2 : Bool)

/-- Modelled from the spec: the export driver (not under `src/`) skips an
entity whose `MIN_DXF_VERSION_FOR_EXPORT` (DXF2000 for LEADER, source
`entities/leader.py`) exceeds the target version, and skips an entity
whose `preprocess_export` returns false; otherwise it delegates to
`export_entity`. -/
def leaderExport (L : LeaderState) (v : Nat) : List DXFTag :=
  if v < DXF2000 then []
  else if leader_preprocess_export L then leaderExportEntity L v
  else []

/-- C6: a subclass-marker tag is emitted exactly when the target version
supports subclassing.  For LINE the marker appears iff the target is
newer than DXF12; for LEADER no marker (indeed no tag at all) is emitted
at DXF12 or any version below its DXF2000 export minimum, and whenever a
LEADER is exported (version at least DXF2000, at least 2 vertices) the
marker is present. -/
theorem subclass_marker_iff_version_supports_it :
    (∀ ns v, hasSubclassMarker (lineExportEntity ns v)
      = decide (DXF12 < v)) ∧
    (∀ L v, hasSubclassMarker (leaderExport L v) = true → DXF12 < v) ∧
    (∀ L v, DXF2000 ≤ v → 2 ≤ L.vertices.length →
      hasSubclassMarker (leaderExport L v) = true) := by
  refine ⟨?_, ?_, ?_⟩
  · intro ns v
    have hbody : ((export_dxf_attribs acdb_line
        ["start", "end", "thickness", "extrusion"] ns v).any
          fun t => t.code == SUBCLASS_MARKER) = false := by
      rw [List.any_eq_false]
      exact fun t ht => by simp [line_export_no_marker_in_body ns v t ht]
    by_cases hm : DXF12 < v <;>
      simp [lineExportEntity, hasSubclassMarker, hm, hbody]
  · intro L v h
    simp only [leaderExport] at h
    by_cases hv : v < DXF2000
    · simp [hv, hasSubclassMarker] at h
    · simp only [DXF2000] at hv
      simp only [DXF12]
      omega
  · intro L v hv hlen
    have h1 : ¬ (v < DXF2000) := by omega
    have h2 : leader_preprocess_export L = true := by
      simp [leader_preprocess_export]
      omega
    simp [leaderExport, h1, h2, leaderExportEntity, hasSubclassMarker]

/-- Witness for C6: LINE exported at DXF12 carries no marker and at
DXF2000 carries one; a two-vertex LEADER exported at DXF2000 carries one,
and DXF2000 is newer than DXF12. -/
theorem subclass_marker_iff_version_supports_it_witness :
    hasSubclassMarker (lineExportEntity [] DXF12) = false ∧
    hasSubclassMarker (lineExportEntity [] DXF2000) = true ∧
    hasSubclassMarker
      (leaderExport ⟨[], [.pt 0 0 0, .pt 1 1 1]⟩ DXF2000) = true ∧
    DXF12 < DXF2000 := by
  refine ⟨?_, ?_, ?_, ?_⟩
  · rw [(subclass_marker_iff_version_supports_it).1 [] DXF12]; decide
  · rw [(subclass_marker_iff_version_supports_it).1 [] DXF2000]; decide
  · exact (subclass_marker_iff_version_supports_it).2.2
      ⟨[], [.pt 0 0 0, .pt 1 1 1]⟩ DXF2000 (by decide) (by decide)
  · exact (subclass_marker_iff_version_supports_it).2.1
      ⟨[], [.pt 0 0 0, .pt 1 1 1]⟩ DXF2000
      ((subclass_marker_iff_version_supports_it).2.2
        ⟨[], [.pt 0 0 0, .pt 1 1 1]⟩ DXF2000 (by decide) (by decide))

/-- Componentwise vector addition. -/
def vadd (a b : Int × Int × Int) : Int × Int × Int :=
  (a.1 + b.1, a.2.1 + b.2.1, a.2.2 + b.2.2)

/-- The stored (or default) point value of an attribute, as a vector. -/
def nsGetPoint (schema : List DXFAttr) (ns : Namespace) (nm : String) :
    Int × Int × Int :=
  match nsGet schema ns nm with
  | some (.pt x y z) => (x, y, z)
  | _ => (0, 0, 0)

/-- `Line.translate` (source: `entities/line.py`): set `start` to
`vec + start` and `end` to `vec + end`, where `vec = (dx, dy, dz)`; the
mutated entity itself is the result (floating interface). -/
def lineTranslate (ns : Namespace) (dx dy dz : Int) : Namespace :=
  let vec := (dx, dy, dz)
  let ns1 := nsSet "start" (ptVal (vadd vec (nsGetPoint acdb_line ns "start"))) ns
  nsSet "end" (ptVal (vadd vec (nsGetPoint acdb_line ns1 "end"))) ns1

/-- C10: `Line.translate dx dy dz` replaces `start` with
`start + (dx, dy, dz)` and `end` with `end + (dx, dy, dz)` and leaves
every other DXF attribute — thickness and extrusion included — unchanged;
the function's value is the updated entity itself. -/
theorem line_translate_spec (ns : Namespace) (dx dy dz : Int) :
    nsGetPoint acdb_line (lineTranslate ns dx dy dz) "start"
      = vadd (dx, dy, dz) (nsGetPoint acdb_line ns "start") ∧
    nsGetPoint acdb_line (lineTranslate ns dx dy dz) "end"
      = vadd (dx, dy, dz) (nsGetPoint acdb_line ns "end") ∧
    (∀ nm, nm ≠ "start" → nm ≠ "end" →
      nsGet acdb_line (lineTranslate ns dx dy dz) nm
        = nsGet acdb_line ns nm) := by
  refine ⟨?_, ?_, ?_⟩
  · have h1 : (lineTranslate ns dx dy dz).lookup "start"
        = some (ptVal (vadd (dx, dy, dz) (nsGetPoint acdb_line ns "start"))) := by
      simp [lineTranslate, nsSet, List.lookup]
    rcases h : nsGetPoint acdb_line ns "start" with ⟨x, y, z⟩
    rw [h] at h1
    simp [nsGetPoint, nsGet, h1, ptVal, vadd]
  · have h2 : (lineTranslate ns dx dy dz).lookup "end"
        = some (ptVal (vadd (dx, dy, dz)
            (nsGetPoint acdb_line (nsSet "start"
              (ptVal (vadd (dx, dy, dz) (nsGetPoint acdb_line ns "start"))) ns)
              "end"))) := by
      simp [lineTranslate, nsSet, List.lookup]
    have h3 : nsGetPoint acdb_line (nsSet "start"
        (ptVal (vadd (dx, dy, dz) (nsGetPoint acdb_line ns "start"))) ns) "end"
        = nsGetPoint acdb_line ns "end" := by
      simp [nsGetPoint, nsGet, nsSet, List.lookup]
    rcases h : nsGetPoint acdb_line ns "end" with ⟨x, y, z⟩
    rw [h3, h] at h2
    simp [nsGetPoint, nsGet, h2, ptVal, vadd]
  · intro nm hs he
    simp [lineTranslate, nsGet, nsSet, List.lookup,
      beq_eq_false_iff_ne.mpr hs, beq_eq_false_iff_ne.mpr he]

/-- Witness for C10 at a concrete line and offset: the frame condition
applied to the thickness attribute. -/
theorem line_translate_spec_witness :
    nsGetPoint acdb_line
        (lineTranslate [("start", .pt 1 2 3), ("thickness", .int 7)] 10 20 30)
        "start"
      = vadd (10, 20, 30)
          (nsGetPoint acdb_line [("start", .pt 1 2 3), ("thickness", .int 7)]
            "start") ∧
    ("thickness" : String) ≠ "start" ∧ ("thickness" : String) ≠ "end" ∧
    nsGet acdb_line
        (lineTranslate [("start", .pt 1 2 3), ("thickness", .int 7)] 10 20 30)
        "thickness"
      = nsGet acdb_line [("start", .pt 1 2 3), ("thickness", .int 7)]
          "thickness" :=
  ⟨(line_translate_spec [("start", .pt 1 2 3), ("thickness", .int 7)]
      10 20 30).1,
   by decide, by decide,
   (line_translate_spec [("start", .pt 1 2 3), ("thickness", .int 7)]
      10 20 30).2.2 "thickness" (by decide) (by decide)⟩

theorem load_rest_characterization (schema : List DXFAttr)
    (tags : List DXFTag) :
    ∀ ns ns' rest,
      load_dxfattribs_into_namespace schema ns tags = .ok (ns', rest) →
      rest = tags.filter (fun t => !(t.code == SUBCLASS_MARKER)
        && (schema.find? (fun a => a.code == t.code)).isNone) := by
  induction tags with
  | nil =>
    intro ns ns' rest h
    simp only [load_nil, Except.ok.injEq, Prod.mk.injEq] at h
    simp [← h.2]
  | cons t ts ih =>
    intro ns ns' rest h
    simp only [load_dxfattribs_into_namespace] at h
    by_cases hm : t.code = SUBCLASS_MARKER
    · rw [if_pos hm] at h
      simp [List.filter_cons, hm, ih _ _ _ h]
    · rw [if_neg hm] at h
      cases hfind : schema.find? (fun a => a.code == t.code) with
      | some a =>
        rw [hfind] at h
        by_cases hc : compatible a.xtype t.value = true
        · simp only [hc, if_true] at h
          simp [List.filter_cons, beq_eq_false_iff_ne.mpr hm, hfind,
            ih _ _ _ h]
        · simp only [Bool.not_eq_true] at hc
          simp [hc] at h
      | none =>
        rw [hfind] at h
        cases hrec : load_dxfattribs_into_namespace schema ns ts with
        | ok p =>
          obtain ⟨ns₁, r₁⟩ := p
          rw [hrec] at h
          simp only [Except.ok.injEq, Prod.mk.injEq] at h
          rw [← h.2]
          simp [List.filter_cons, beq_eq_false_iff_ne.mpr hm, hfind,
            ih _ _ _ hrec]
        | error e => rw [hrec] at h; simp at h

theorem load_filter_unmatched (schema : List DXFAttr) (c : Nat)
    (hc : c ≠ SUBCLASS_MARKER)
    (hf : schema.find? (fun a => a.code == c) = none) (tags : List DXFTag) :
    ∀ ns, load_dxfattribs_into_namespace schema ns
        (tags.filter (fun t => !(t.code == c)))
      = Except.map
          (fun p => (p.1, p.2.filter (fun t => !(t.code == c))))
          (load_dxfattribs_into_namespace schema ns tags) := by
  induction tags with
  | nil => intro ns; simp [load_nil, Except.map]
  | cons t ts ih =>
    intro ns
    by_cases hct : t.code = c
    · have hdrop : (!(t.code == c)) = false := by simp [hct]
      simp only [List.filter_cons, hdrop, Bool.false_eq_true, if_false,
        ite_false]
      have hmark : ¬ t.code = SUBCLASS_MARKER := by rw [hct]; exact hc
      have hfind : schema.find? (fun a => a.code == t.code) = none := by
        rw [hct]; exact hf
      simp only [load_dxfattribs_into_namespace, hmark, if_false, ite_false,
        hfind, ih]
      cases load_dxfattribs_into_namespace schema ns ts with
      | ok p =>
        obtain ⟨ns₁, r₁⟩ := p
        simp [Except.map, List.filter_cons, hdrop]
      | error e => simp [Except.map]
    · have hkeep : (!(t.code == c)) = true := by simp [hct]
      simp only [List.filter_cons, hkeep, if_true]
      by_cases hm : t.code = SUBCLASS_MARKER
      · simp only [load_dxfattribs_into_namespace, hm, if_true, ih]
      · simp only [load_dxfattribs_into_namespace, hm, if_false, ite_false]
        cases hfind : schema.find? (fun a => a.code == t.code) with
        | some a =>
          by_cases hcomp : compatible a.xtype t.value = true
          · simp only [hcomp, if_true, ih]
          · simp only [Bool.not_eq_true] at hcomp
            simp [hcomp, Except.map]
        | none =>
          simp only [ih]
          cases load_dxfattribs_into_namespace schema ns ts with
          | ok p =>
            obtain ⟨ns₁, r₁⟩ := p
            simp [Except.map, List.filter_cons, hkeep]
          | error e => simp [Except.map]

theorem load_ok_of_compatible (schema : List DXFAttr) (tags : List DXFTag) :
    ∀ ns,
      (∀ t ∈ tags, ∀ a,
        schema.find? (fun x => x.code == t.code) = some a →
        compatible a.xtype t.value = true) →
      ∃ p, load_dxfattribs_into_namespace schema ns tags = .ok p := by
  induction tags with
  | nil => intro ns _; exact ⟨(ns, []), rfl⟩
  | cons t ts ih =>
    intro ns hcomp
    have hts : ∀ t' ∈ ts, ∀ a,
        schema.find? (fun x => x.code == t'.code) = some a →
        compatible a.xtype t'.value = true :=
      fun t' ht' => hcomp t' (List.mem_cons_of_mem t ht')
    by_cases hm : t.code = SUBCLASS_MARKER
    · obtain ⟨p, hp⟩ := ih ns hts
      exact ⟨p, by simp [load_dxfattribs_into_namespace, hm, hp]⟩
    · cases hfind : schema.find? (fun a => a.code == t.code) with
      | some a =>
        have hc : compatible a.xtype t.value = true :=
          hcomp t (List.mem_cons_self t ts) a hfind
        obtain ⟨p, hp⟩ := ih (nsSet a.name t.value ns) hts
        exact ⟨p, by
          simp [load_dxfattribs_into_namespace, hm, hfind, hc, hp]⟩
      | none =>
        obtain ⟨⟨ns₁, r₁⟩, hp⟩ := ih ns hts
        exact ⟨(ns₁, t :: r₁), by
          simp [load_dxfattribs_into_namespace, hm, hfind, hp]⟩

theorem load_error_has_incompatible (schema : List DXFAttr)
    (tags : List DXFTag) :
    ∀ ns e, load_dxfattribs_into_namespace schema ns tags = .error e →
      ∃ t ∈ tags, ∃ a,
        schema.find? (fun x => x.code == t.code) = some a ∧
        compatible a.xtype t.value = false := by
  induction tags with
  | nil => intro ns e h; simp [load_nil] at h
  | cons t ts ih =>
    intro ns e h
    simp only [load_dxfattribs_into_namespace] at h
    by_cases hm : t.code = SUBCLASS_MARKER
    · rw [if_pos hm] at h
      obtain ⟨t', ht', a, ha, hc⟩ := ih _ _ h
      exact ⟨t', List.mem_cons_of_mem t ht', a, ha, hc⟩
    · rw [if_neg hm] at h
      cases hfind : schema.find? (fun a => a.code == t.code) with
      | some a =>
        rw [hfind] at h
        dsimp only at h
        by_cases hc : compatible a.xtype t.value = true
        · rw [if_pos hc] at h
          obtain ⟨t', ht', a', ha', hc'⟩ := ih _ _ h
          exact ⟨t', List.mem_cons_of_mem t ht', a', ha', hc'⟩
        · simp only [Bool.not_eq_true] at hc
          exact ⟨t, List.mem_cons_self t ts, a, hfind, hc⟩
      | none =>
        rw [hfind] at h
        dsimp only at h
        cases hrec : load_dxfattribs_into_namespace schema ns ts with
        | ok p => rw [hrec] at h; obtain ⟨ns₁, r₁⟩ := p; simp at h
        | error e' =>
          rw [hrec] at h
          obtain ⟨t', ht', a', ha', hc'⟩ := ih _ _ hrec
          exact ⟨t', List.mem_cons_of_mem t ht', a', ha', hc'⟩

/-- `Leader.load_dxf_attribs` plus `Leader.load_vertices` (source:
`entities/leader.py`): the `AcDbLeader` schema attributes are consumed
into the namespace, then every code-10 tag among the remaining tags
becomes a vertex, in order; everything else (the code-76 count tag
included) is only logged, never stored. -/
def leaderLoad (tags : List DXFTag) : Except String LeaderState :=
  match load_dxfattribs_into_namespace acdb_leader [] tags with
  | .ok (ns, rest) =>
    .ok ⟨ns, (rest.filter (fun t => t.code == 10)).map (fun t => t.value)⟩
  | .error e => .error e

theorem find_leader_code_10 :
    acdb_leader.find? (fun a => a.code == (10 : Nat)) = none := rfl

theorem find_leader_code_76 :
    acdb_leader.find? (fun a => a.code == (76 : Nat)) = none := rfl

/-- C3: the vertex-count tag is derived state, never stored.  Export
always emits a code-76 tag computed fresh as the length of the vertex
list; loading is invariant under deleting every code-76 tag from the
source (the count is discarded, not entity state); and the loaded vertex
list is exactly the values of the code-10 tags of the source, in order. -/
theorem leader_count_tag_fresh_and_discarded :
    (∀ L : LeaderState, (leaderExportVertices L).head?
        = some ⟨76, .int L.vertices.length⟩) ∧
    (∀ tags, leaderLoad (tags.filter (fun t => !(t.code == 76)))
        = leaderLoad tags) ∧
    (∀ tags st, leaderLoad tags = .ok st →
      st.vertices
        = (tags.filter (fun t => t.code == 10)).map (fun t => t.value)) := by
  refine ⟨fun L => rfl, ?_, ?_⟩
  · intro tags
    simp only [leaderLoad,
      load_filter_unmatched acdb_leader 76 (by decide) find_leader_code_76
        tags []]
    cases load_dxfattribs_into_namespace acdb_leader [] tags with
    | ok p =>
      obtain ⟨ns, rest⟩ := p
      simp only [Except.map, LeaderState.mk.injEq, Except.ok.injEq,
        List.filter_filter, true_and]
      congr 1
      apply List.filter_congr
      intro t _
      by_cases h10 : t.code = 10
      · simp [h10]
      · simp [beq_eq_false_iff_ne.mpr h10]
    | error e => simp [Except.map]
  · intro tags st h
    simp only [leaderLoad] at h
    cases hload : load_dxfattribs_into_namespace acdb_leader [] tags with
    | ok p =>
      obtain ⟨ns, rest⟩ := p
      rw [hload] at h
      obtain rfl : (⟨ns, (rest.filter (fun t => t.code == 10)).map
          (fun t => t.value)⟩ : LeaderState) = st := by simpa using h
      have hrest := load_rest_characterization acdb_leader tags _ _ _ hload
      simp only [hrest, List.filter_filter]
      congr 1
      apply List.filter_congr
      intro t _
      by_cases h10 : t.code = 10
      · simp [h10, SUBCLASS_MARKER, find_leader_code_10]
      · simp [beq_eq_false_iff_ne.mpr h10]
    | error e => rw [hload] at h; simp at h

/-- Witness for C3: a source with a stale count tag (76, 5) and two
vertices — removing the count tag does not change the loaded entity, and
the vertex list comes from the code-10 tags alone. -/
theorem leader_count_tag_witness :
    leaderLoad (([⟨76, .int 5⟩, ⟨10, .pt 0 0 0⟩, ⟨10, .pt 1 1 1⟩]
        : List DXFTag).filter (fun t => !(t.code == 76)))
      = leaderLoad [⟨76, .int 5⟩, ⟨10, .pt 0 0 0⟩, ⟨10, .pt 1 1 1⟩] ∧
    (leaderExportVertices ⟨[], [.pt 0 0 0, .pt 1 1 1]⟩).head?
      = some ⟨76, .int 2⟩ ∧
    (⟨[], [.pt 0 0 0, .pt 1 1 1]⟩ : LeaderState).vertices
      = (([⟨76, .int 5⟩, ⟨10, .pt 0 0 0⟩, ⟨10, .pt 1 1 1⟩]
          : List DXFTag).filter (fun t => t.code == 10)).map
            (fun t => t.value) :=
  ⟨leader_count_tag_fresh_and_discarded.2.1
      [⟨76, .int 5⟩, ⟨10, .pt 0 0 0⟩, ⟨10, .pt 1 1 1⟩],
   leader_count_tag_fresh_and_discarded.1 ⟨[], [.pt 0 0 0, .pt 1 1 1]⟩,
   leader_count_tag_fresh_and_discarded.2.2
      [⟨76, .int 5⟩, ⟨10, .pt 0 0 0⟩, ⟨10, .pt 1 1 1⟩]
      ⟨[], [.pt 0 0 0, .pt 1 1 1]⟩ (by rfl)⟩

/-- Modelled from the spec: `Leader.audit` calls
`auditor.fixed_error(AuditError.INVALID_VERTEX_COUNT)` and deletes the
entity from its database when it has fewer than 2 vertices (source:
`entities/leader.py`; the `Auditor` class itself is not under `src/`).
`some` means the entity was removed with the given error label. -/
def leaderAudit (st : LeaderState) : Option String :=
  if st.vertices.length < 2 then some "INVALID_VERTEX_COUNT" else none

/-- C5: a LEADER that loads successfully with fewer than 2 vertices is
not a parse error — the load completes with `.ok` — and the separate
audit pass removes the entity (and export vetoes it) instead of the load
failing. -/
theorem leader_undersized_audited_not_parse_error (tags : List DXFTag)
    (st : LeaderState) (h : leaderLoad tags = .ok st)
    (hlt : st.vertices.length < 2) :
    leaderAudit st = some "INVALID_VERTEX_COUNT" ∧
    leader_preprocess_export st = false := by
  constructor
  · simp [leaderAudit, hlt]
  · simp [leader_preprocess_export]
    omega

/-- Witness for C5: a tag stream with a single vertex loads without
error and the audit pass removes the loaded entity. -/
theorem leader_undersized_audited_witness :
    ∃ st, leaderLoad [⟨10, TagValue.pt 1 2 3⟩] = .ok st ∧
      st.vertices.length < 2 ∧
      leaderAudit st = some "INVALID_VERTEX_COUNT" ∧
      leader_preprocess_export st = false :=
  ⟨⟨[], [.pt 1 2 3]⟩, by rfl, by decide,
    leader_undersized_audited_not_parse_error [⟨10, TagValue.pt 1 2 3⟩]
      ⟨[], [.pt 1 2 3]⟩ (by rfl) (by decide)⟩

/-- C7: error handling of the load pipeline, for every schema and tag
sequence.  (1) If every tag whose code matches an attribute definition
carries a structurally compatible value, loading succeeds — in
particular it never raises because of unrecognized tags.  (2) When
loading fails, some tag matched an attribute definition with a
structurally incompatible wire value; the failure is an `Except.error`
value scoped to this one entity's load call.  (3) On success, the tags
returned to the caller are exactly the non-marker tags whose code matches
no attribute definition, in file order — unrecognized tags are returned,
never discarded. -/
theorem load_pipeline_error_handling (schema : List DXFAttr) :
    (∀ tags ns,
      (∀ t ∈ tags, ∀ a,
        schema.find? (fun x => x.code == t.code) = some a →
        compatible a.xtype t.value = true) →
      ∃ p, load_dxfattribs_into_namespace schema ns tags = .ok p) ∧
    (∀ tags ns e,
      load_dxfattribs_into_namespace schema ns tags = .error e →
      ∃ t ∈ tags, ∃ a,
        schema.find? (fun x => x.code == t.code) = some a ∧
        compatible a.xtype t.value = false) ∧
    (∀ tags ns ns' rest,
      load_dxfattribs_into_namespace schema ns tags = .ok (ns', rest) →
      rest = tags.filter (fun t => !(t.code == SUBCLASS_MARKER)
        && (schema.find? (fun a => a.code == t.code)).isNone)) :=
  ⟨fun tags ns h => load_ok_of_compatible schema tags ns h,
   fun tags ns e h => load_error_has_incompatible schema tags ns e h,
   fun tags ns ns' rest h =>
     load_rest_characterization schema tags ns ns' rest h⟩

/-- Witness for C7 on the AcDbLine schema: a stream with one matching,
compatible tag and one unrecognized tag (code 999) loads successfully
and returns exactly the unrecognized tag. -/
theorem load_pipeline_error_handling_witness :
    (∃ p, load_dxfattribs_into_namespace acdb_line []
        [⟨10, .pt 1 2 3⟩, ⟨999, .int 7⟩] = .ok p) ∧
    ([⟨999, .int 7⟩] : List DXFTag)
      = ([⟨10, .pt 1 2 3⟩, ⟨999, .int 7⟩] : List DXFTag).filter
        (fun t => !(t.code == SUBCLASS_MARKER)
          && (acdb_line.find? (fun a => a.code == t.code)).isNone) :=
  ⟨(load_pipeline_error_handling acdb_line).1
      [⟨10, .pt 1 2 3⟩, ⟨999, .int 7⟩] [] (by decide),
   (load_pipeline_error_handling acdb_line).2.2
      [⟨10, .pt 1 2 3⟩, ⟨999, .int 7⟩] []
      [("start", .pt 1 2 3)] [⟨999, .int 7⟩] (by rfl)⟩

end Ezdxf
